import Mathlib

/-!
Shallow embedding of the aio-routes resolution and dispatch engine
(src/aioroutes/core.py, src/aioroutes/exceptions.py, src/aioroutes/scope.py).

Conventions of the embedding:
* Python values that flow through handlers are modelled by `PyVal`;
  `PyVal.none` is Python `None`.
* Python exceptions are modelled by `Exc`; fallible code returns
  `Except Exc _`.  `asyncio` coroutines are single-threaded cooperative
  calls, so `yield from f(...)` is embedded as a plain call.
* The unbounded `while True` loop of `Site._safe_dispatch` and the
  unbounded resolution loop of `BaseResolver.resolve` are embedded with an
  explicit fuel parameter; `Option.none` as an outer layer means the fuel
  ran out, i.e. the source loop has not terminated within that bound.
* Strings are ASCII in all inputs of interest; `str.isidentifier` is
  modelled on ASCII.
-/

namespace AioRoutes

/-- Characters allowed after the first one in a Python identifier. -/
def identChar (c : Char) : Bool := c.isAlphanum || c == '_'

/-- Model of Python `str.isidentifier()` (ASCII fragment): nonempty, first
character a letter or underscore, remaining characters alphanumeric or
underscore. -/
def pyIsIdentifier (s : String) : Bool :=
  match s.data with
  | [] => false
  | c :: cs => (c.isAlpha || c == '_') && cs.all identChar

/-- Model of Python `name.startswith('_')`. -/
def startsUnderscore (s : String) : Bool :=
  match s.data with
  | '_' :: _ => true
  | _ => false

/-- Auxiliary for `splitChar`, carrying the reversed current chunk. -/
def splitCharAux (sep : Char) : List Char → List Char → List String
  | [], acc => [String.mk acc.reverse]
  | c :: cs, acc =>
    if c == sep then String.mk acc.reverse :: splitCharAux sep cs []
    else splitCharAux sep cs (c :: acc)

/-- Model of Python `s.split(sep)` for a one-character separator:
`splitChar '/' ""` is `[""]`, like `''.split('/')`. -/
def splitChar (sep : Char) (s : String) : List String :=
  splitCharAux sep s.data []

/-- Characters of a list before the first occurrence of `c` (all of them if
`c` does not occur). -/
def beforeChar (c : Char) : List Char → List Char
  | [] => []
  | x :: xs => if x == c then [] else x :: beforeChar c xs

/-- Characters after the first occurrence of `c`, or `none` if `c` does not
occur. -/
def afterChar (c : Char) : List Char → Option (List Char)
  | [] => Option.none
  | x :: xs => if x == c then some xs else afterChar c xs

/-- Model of Python `s.strip('/')`: drop every leading and trailing slash. -/
def stripSlashes (s : String) : String :=
  String.mk (((s.data.dropWhile (fun c => c == '/')).reverse.dropWhile
    (fun c => c == '/')).reverse)

/-- Decimal digits to a number; `none` on an empty list or a non-digit. -/
def digitsToNat : List Char → Option Nat → Option Nat
  | [], acc => acc
  | c :: cs, acc =>
    if c.isDigit then
      digitsToNat cs (some ((acc.getD 0) * 10 + (c.toNat - '0'.toNat)))
    else Option.none

/-- Model of Python `int(s)` on a plain decimal string: optional sign then at
least one digit; anything else raises ValueError (here: `none`). -/
def pyInt (s : String) : Option Int :=
  match s.data with
  | '-' :: rest => (digitsToNat rest Option.none).map (fun n => -(n : Int))
  | '+' :: rest => (digitsToNat rest Option.none).map Int.ofNat
  | ds => (digitsToNat ds Option.none).map Int.ofNat

/-- Model of Python `dict(pairs)`: keep the last value for every repeated
key, first-occurrence key order. -/
def dictOf (ps : List (String × String)) : List (String × String) :=
  ps.foldl
    (fun acc kv =>
      if acc.any (fun e => e.1 == kv.1) then
        acc.map (fun e => if e.1 == kv.1 then kv else e)
      else acc ++ [kv])
    []

/-- Exceptions of the engine (src/aioroutes/exceptions.py).  The first four
are `WebException`s; `childNotFound` is the internal resolution signal;
`pathRewrite` is the `InternalRedirect` subclass; the remaining
constructors model ordinary Python exceptions raised during resolution
(`TypeError`/`ValueError` from signature binding, `AttributeError`,
`RuntimeError` from the resolver, and arbitrary user-code exceptions). -/
inductive Exc where
  | notFound
  | methodNotAllowed
  | forbidden
  | internalError
  | childNotFound
  | pathRewrite (newPath : String)
  | typeError
  | valueError
  | attributeError
  | runtimeError
  | userError (msg : String)
deriving DecidableEq

/-- `isinstance(e, WebException)` over the model. -/
def Exc.isWeb : Exc → Bool
  | .notFound => true
  | .methodNotAllowed => true
  | .forbidden => true
  | .internalError => true
  | _ => false

/-- Python values flowing through handlers and hooks.  `renderable r` models
an object whose `http_response` method (plain or coroutine) returns `r`;
`vbytes` keeps the text of a byte string (utf-8 encoding is the identity
on the modelled content). -/
inductive PyVal where
  | none
  | vbool (b : Bool)
  | vint (n : Int)
  | vstr (s : String)
  | vbytes (s : String)
  | vlist (xs : List PyVal)
  | renderable (rendered : PyVal)

/-- Python `value is None`. -/
def PyVal.isNone : PyVal → Bool
  | PyVal.none => true
  | _ => false

/-- Coercion attached to a parameter by `_compile_signature`: a builtin or
user annotation such as `int` applied to the incoming string, or no
annotation (the raw string is passed through). -/
inductive Coerce where
  | cnone
  | cint

/-- One positional-or-keyword parameter of a compiled signature (the `self`
parameter is excluded; sticker parameters are not used by any modelled
handler).  When the parameter has a default, the generated code applies the
default without coercion and coerces only explicitly supplied input
(src/aioroutes/core.py lines 321-339). -/
structure PParam where
  name : String
  hasDefault : Bool
  dflt : PyVal
  coerce : Coerce

/-- Shape of the function generated by `_compile_signature` (core.py lines
304-404): positional-or-keyword parameters, an optional var-positional
parameter of the handler itself, keyword-only parameters, an optional
var-keyword parameter, and — for `partial=True` resource methods without a
var-positional parameter — a synthetic `__tail__` that absorbs the
unconsumed positional input (`allowTail`). -/
structure SigSpec where
  params : List PParam
  varpos : Bool
  kwonly : List PParam
  varkw : Bool
  allowTail : Bool

/-- Apply a parameter's coercion to a supplied string; `int(...)` failure is
a ValueError, caught by the dispatchers (core.py lines 284, 441). -/
def applyCoerce : Coerce → String → Except Exc PyVal
  | .cnone, s => .ok (.vstr s)
  | .cint, s =>
    match pyInt s with
    | some n => .ok (.vint n)
    | Option.none => .error .valueError

/-- First value bound to a key in a keyword-argument list (the lists fed to
the binder are deduplicated by `dictOf`). -/
def lookupKw : List (String × String) → String → Option String
  | [], _ => Option.none
  | kv :: rest, k => if kv.1 == k then some kv.2 else lookupKw rest k

/-- CPython call binding of the generated signature's positional-or-keyword
parameters: positional input fills parameters left to right; a keyword for
a positionally filled parameter is `TypeError: multiple values`; a
parameter with no input and no default is `TypeError: missing argument`. -/
def bindParams : List PParam → List String → List (String × String) →
    Except Exc (List PyVal)
  | [], _, _ => .ok []
  | p :: ps, v :: pos, kw =>
    match lookupKw kw p.name with
    | some _ => .error .typeError
    | Option.none => do
      let val ← applyCoerce p.coerce v
      let rest ← bindParams ps pos kw
      .ok (val :: rest)
  | p :: ps, [], kw =>
    match lookupKw kw p.name with
    | some v => do
      let val ← applyCoerce p.coerce v
      let rest ← bindParams ps [] kw
      .ok (val :: rest)
    | Option.none =>
      if p.hasDefault then do
        let rest ← bindParams ps [] kw
        .ok (p.dflt :: rest)
      else .error .typeError

/-- Binding of keyword-only parameters: keyword input or default. -/
def bindKwOnly : List PParam → List (String × String) →
    Except Exc (List (String × PyVal))
  | [], _ => .ok []
  | p :: ps, kw =>
    match lookupKw kw p.name with
    | some v => do
      let val ← applyCoerce p.coerce v
      let rest ← bindKwOnly ps kw
      .ok ((p.name, val) :: rest)
    | Option.none =>
      if p.hasDefault then do
        let rest ← bindKwOnly ps kw
        .ok ((p.name, p.dflt) :: rest)
      else .error .typeError

/-- Declared parameter names of a signature. -/
def sigNames (sp : SigSpec) : List String :=
  sp.params.map PParam.name ++ sp.kwonly.map PParam.name

/-- Keyword input not matching any declared parameter: absorbed by a
var-keyword parameter, otherwise collected into the synthetic `__kw__`
and discarded. -/
def kwExtras (sp : SigSpec) (kw : List (String × String)) :
    List (String × PyVal) :=
  kw.filterMap
    (fun kv =>
      if (sigNames sp).contains kv.1 then Option.none
      else some (kv.1, PyVal.vstr kv.2))

/-- The behaviour of the `__sig__` function generated by
`_compile_signature` (core.py lines 304-404), called as
`__sig__(resolver, *args, **kwargs)` by the dispatchers: returns the bound
positional tuple, the unconsumed tail, and the bound keyword mapping, or
raises TypeError/ValueError.  A leaf signature (`partial=False`, no
var-positional) has no `__tail__`, so any extra positional input is a
TypeError; a resource signature collects it into `__tail__`; a
var-positional parameter of the handler absorbs it into the bound tuple. -/
def bindSig (sp : SigSpec) (pos : List String) (kw : List (String × String)) :
    Except Exc (List PyVal × List String × List (String × PyVal)) :=
  let extra := pos.drop sp.params.length
  if !extra.isEmpty && !sp.varpos && !sp.allowTail then
    .error .typeError
  else do
    let bound ← bindParams sp.params (pos.take sp.params.length) kw
    let bound := if sp.varpos then bound ++ extra.map PyVal.vstr else bound
    let tail := if sp.varpos then [] else if sp.allowTail then extra else []
    let kwb ← bindKwOnly sp.kwonly kw
    let kwb := if sp.varkw then kwb ++ kwExtras sp kw else kwb
    .ok (bound, tail, kwb)

/-- Raw keyword arguments of a request (`resolver.kwargs`). -/
abbrev KW := List (String × String)

/-- A pre-hook (`_zweb_pre` entry): called with
`(self, resolver, *resolver.args, **resolver.kwargs)`; `self` and
`resolver` are closed over, so the model takes the raw positional args and
keyword args. -/
abbrev PreHook := List String → KW → Except Exc PyVal

/-- A post-hook (`_zweb_post` entry): called with
`(self, resolver, result)`. -/
abbrev PostHook := PyVal → Except Exc PyVal

/-- A node of the resource tree as seen by `BaseResolver.resolve`:
* `res` is a `Resource` instance (`_zweb is _RESOURCE`) with its named
  attribute surface;
* `leaf` is an `@endpoint`/`@page`-tagged method (`_zweb` in
  `_LEAF_METHODS`); `endpoint` always initialises `_zweb_post`, so the
  post-hook list is total;
* `resM` is an `@resource`/`@http_resource`-tagged method (`_zweb` in
  `_RES_METHODS`); `resource` does NOT initialise `_zweb_post`, so the
  post-hook list is `Option.none` unless some `@postprocessor` was
  attached (core.py lines 407-412 versus 453-460);
* `plain` is an attribute with no `_zweb` tag.
Handlers with a `_zweb_deco` decorator chain are not modelled; every
modelled handler has `_zweb_deco` unset, so the dispatchers take the
signature-binding branch (core.py lines 274, 432). -/
inductive Node where
  | res (children : List (String × Node))
  | leaf (pre : List PreHook) (post : List PostHook) (spec : SigSpec)
      (body : List PyVal → List (String × PyVal) → Except Exc PyVal)
  | resM (pre : List PreHook) (post : Option (List PostHook)) (spec : SigSpec)
      (body : List PyVal → List (String × PyVal) → Except Exc Node)
  | plain

/-- Attribute lookup on a resource: `getattr(self, name, None)` over the
modelled attribute surface. -/
def lookupChild : List (String × Node) → String → Option Node
  | [], _ => Option.none
  | c :: cs, name => if c.1 == name then some c.2 else lookupChild cs name

/-- `Resource.resolve_local` (core.py lines 176-186): names that are not
plain identifiers or that start with the reserved underscore are hidden;
absent attributes and attributes with no `_zweb` kind tag raise
`ChildNotFound`. -/
def resolve_local (children : List (String × Node)) (name : String) :
    Except Exc Node :=
  if !pyIsIdentifier name || startsUnderscore name then .error .childNotFound
  else
    match lookupChild children name with
    | Option.none => .error .childNotFound
    | some Node.plain => .error .childNotFound
    | some t => .ok t

/-- The pre-hook loop shared by `_dispatch_leaf` and `_dispatch_resource`
(core.py lines 425-430, 267-272): hooks run in registration order and the
first value that `is not None` stops the loop. -/
def runPre (pres : List PreHook) (args : List String) (kw : KW) :
    Except Exc PyVal :=
  match pres with
  | [] => .ok PyVal.none
  | p :: ps =>
    match p args kw with
    | .error e => .error e
    | .ok r => if r.isNone then runPre ps args kw else .ok r

/-- The post-hook loop (core.py lines 448-449, 293-294): each hook
transforms the running result in registration order. -/
def runPost (posts : List PostHook) (v : PyVal) : Except Exc PyVal :=
  match posts with
  | [] => .ok v
  | p :: ps =>
    match p v with
    | .error e => .error e
    | .ok r => runPost ps r

/-- `_dispatch_leaf` (core.py lines 422-450) for a handler without a
decorator chain: run pre-hooks; on a non-None value skip binding and the
body; otherwise bind the signature — TypeError/ValueError is a signature
mismatch reported as NotFound — and run the body; either way the result
passes through the post-hooks. -/
def dispatch_leaf (pre : List PreHook) (post : List PostHook) (spec : SigSpec)
    (body : List PyVal → List (String × PyVal) → Except Exc PyVal)
    (args : List String) (kw : KW) : Except Exc PyVal :=
  match runPre pre args kw with
  | .error e => .error e
  | .ok r =>
    if r.isNone then
      match bindSig spec args kw with
      | .error .typeError => .error .notFound
      | .error .valueError => .error .notFound
      | .error e => .error e
      | .ok bnd =>
        match body bnd.1 bnd.2.2 with
        | .error e => .error e
        | .ok v => runPost post v
    else runPost post r

/-- `_dispatch_resource` (core.py lines 264-295) for a handler without a
decorator chain: on the normal path the body's resource and the unconsumed
tail are returned and post-hooks do NOT run; on a pre-hook short-circuit
the value runs through `fun._zweb_post` — an AttributeError if no
postprocessor was ever attached, since `resource()` does not initialise
`_zweb_post` — and is returned under the `_INTERRUPT` marker
(here `Sum.inr`). -/
def dispatch_resource (pre : List PreHook) (post : Option (List PostHook))
    (spec : SigSpec)
    (body : List PyVal → List (String × PyVal) → Except Exc Node)
    (args : List String) (kw : KW) :
    Except Exc (Node × List String ⊕ PyVal) :=
  match runPre pre args kw with
  | .error e => .error e
  | .ok r =>
    if r.isNone then
      match bindSig spec args kw with
      | .error .typeError => .error .notFound
      | .error .valueError => .error .notFound
      | .error e => .error e
      | .ok bnd =>
        match body bnd.1 bnd.2.2 with
        | .error e => .error e
        | .ok node => .ok (Sum.inl (node, bnd.2.1))
    else
      match post with
      | Option.none => .error .attributeError
      | some posts =>
        match runPost posts r with
        | .error e => .error e
        | .ok v => .ok (Sum.inr v)

/-- `PathResolver.unused_part` (core.py lines 138-139): push the unresolved
segment back onto the front of the remaining input. -/
def unused_part (args : List String) (part : String) : List String :=
  part :: args

/-- One child of the resolution loop after kind inspection
(core.py lines 72-95), parameterised by the continuation that re-enters
the loop on a resource with the given remaining input:
* a leaf method returns `_dispatch_leaf`'s result;
* a resource method is dispatched; `_INTERRUPT` returns the short-circuit
  value, otherwise resolution continues inside the returned node, which
  must itself be a resource — anything else has no
  `http_resolver_class` attribute and raises RuntimeError
  (core.py lines 88-91);
* a plain resource continues the loop;
* any other kind is the defensive `raise NotFound()` (core.py line 87).
All modelled resources use `PathResolver`, so the
`isinstance(self, res_class)` resolver hand-off never fires. -/
def procChild
    (recur : List (String × Node) → List String → Option (Except Exc PyVal))
    (child : Node) (args : List String) (kw : KW) :
    Option (Except Exc PyVal) :=
  match child with
  | Node.res children2 => recur children2 args
  | Node.leaf pre post spec body =>
    some (dispatch_leaf pre post spec body args kw)
  | Node.resM pre post spec body =>
    match dispatch_resource pre post spec body args kw with
    | .error e => some (.error e)
    | .ok (Sum.inr v) => some (.ok v)
    | .ok (Sum.inl nt) =>
      match nt.1 with
      | Node.res children2 => recur children2 nt.2
      | _ => some (.error .runtimeError)
  | Node.plain => some (.error .notFound)

/-- `BaseResolver.resolve` (core.py lines 54-104) as instantiated by
`PathResolver` (`default_method = 'default'`, `index_method = 'index'`,
`child_error` raising NotFound): consume path segments one by one; on
`ChildNotFound` fall back to the `default` attribute with the segment
pushed back (`unused_part`), or fail with NotFound when there is no
`default` attribute; at end of input dispatch a leaf-tagged `index` or
fail with NotFound.  `Option.none` means the fuel bound was reached. -/
def resolveNode :
    Nat → List (String × Node) → List String → KW → Option (Except Exc PyVal)
  | 0, _, _, _ => Option.none
  | Nat.succ fuel, children, args, kw =>
    match args with
    | [] =>
      match lookupChild children "index" with
      | some (Node.leaf pre post spec body) =>
        some (dispatch_leaf pre post spec body [] kw)
      | _ => some (.error .notFound)
    | name :: rest =>
      match resolve_local children name with
      | .ok child => procChild (fun c a => resolveNode fuel c a kw) child rest kw
      | .error _ =>
        match lookupChild children "default" with
        | Option.none => some (.error .notFound)
        | some d =>
          procChild (fun c a => resolveNode fuel c a kw) d
            (unused_part rest name) kw

/-- An incoming request: the engine only reads `request.uri`
(via `parsed_uri` and `form_arguments`). -/
structure Request where
  uri : String

/-- `request.parsed_uri.path`: the URI up to the first question mark. -/
def requestPath (req : Request) : String :=
  String.mk (beforeChar '?' req.uri.data)

/-- `request.parsed_uri.query`: everything after the first question mark. -/
def requestQuery (req : Request) : String :=
  match afterChar '?' req.uri.data with
  | some cs => String.mk cs
  | Option.none => ""

/-- `PathResolver.__init__` path setup (core.py lines 122-126):
`path.strip('/')` split on slashes, empty path giving no segments. -/
def requestArgs (req : Request) : List String :=
  let p := stripSlashes (requestPath req)
  if p == "" then [] else splitChar '/' p

/-- `urllib.parse.parse_qsl` on the query string (plain ASCII fragment, no
percent-escapes): `&`-separated `key=value` fields; fields without `=` or
with an empty value are dropped (`keep_blank_values=False`). -/
def parseQsl (q : String) : List (String × String) :=
  if q.data.isEmpty then []
  else
    (splitChar '&' q).filterMap
      (fun field =>
        match afterChar '=' field.data with
        | Option.none => Option.none
        | some v =>
          if v.isEmpty then Option.none
          else some (String.mk (beforeChar '=' field.data), String.mk v))

/-- `dict(request.form_arguments)` (core.py line 127) for a request without
a form body: the parsed query pairs, later keys winning. -/
def requestKw (req : Request) : KW :=
  dictOf (parseQsl (requestQuery req))

/-- `Site._resolve` (core.py lines 209-218): try each root resource in
order with a fresh `PathResolver`; only NotFound moves on to the next
root; no root left raises NotFound. -/
def siteResolve (fuel : Nat) (roots : List (List (String × Node)))
    (args : List String) (kw : KW) : Option (Except Exc PyVal) :=
  match roots with
  | [] => some (.error .notFound)
  | r :: rs =>
    match resolveNode fuel r args kw with
    | Option.none => Option.none
    | some (.error .notFound) => siteResolve fuel rs args kw
    | some other => some other

/-- `Content-Type` header block shared by the default error pages. -/
def ctHtml : String := "Content-Type\x00text/html\x00"

/-- Body of a default error page (exceptions.py): the status line wrapped in
the fixed html skeleton. -/
def errHtml (title : String) : String :=
  "<!DOCTYPE html><html><head><title>" ++ title ++
    "</title></head><body><h1>" ++ title ++ "</h1></body></html>"

/-- `WebException.default_response` for the four modelled web exceptions
(exceptions.py lines 12-77); `Site._safe_dispatch` wraps every other
exception into `InternalError` before rendering, so the remaining
constructors render the 500 page. -/
def defaultResponse : Exc → PyVal
  | .notFound =>
    .vlist [.vbytes "404 Not Found", .vbytes ctHtml,
      .vbytes (errHtml "404 Page Not Found")]
  | .methodNotAllowed =>
    .vlist [.vbytes "405 Method Not Allowed", .vbytes ctHtml,
      .vbytes (errHtml "405 Method Not Allowed")]
  | .forbidden =>
    .vlist [.vbytes "403 Forbidden", .vbytes ctHtml,
      .vbytes (errHtml "403 Forbidden")]
  | _ =>
    .vlist [.vbytes "500 Internal Server Error", .vbytes ctHtml,
      .vbytes (errHtml "500 Internal Server Error")]

/-- The exception branch of `Site._safe_dispatch` (core.py lines 227-235):
a non-`WebException` is wrapped as `InternalError`; the base
`Site.error_page` renders `default_response`, which cannot itself fail. -/
def handleError (e : Exc) : PyVal :=
  defaultResponse (if e.isWeb then e else Exc.internalError)

/-- `Site._safe_dispatch` (core.py lines 220-237): resolve; on an
`InternalRedirect` mutate the request (`PathRewrite.update_request`,
exceptions.py lines 145-152, replaces `request.uri`) and restart the whole
resolution; on any other exception render an error page; on success return
the result.  The outer fuel bounds the unbounded `while True` loop,
the inner fuel bounds each resolution. -/
def safe_dispatch :
    Nat → Nat → List (List (String × Node)) → Request → Option PyVal
  | 0, _, _, _ => Option.none
  | Nat.succ fuel, rfuel, roots, req =>
    match siteResolve rfuel roots (requestArgs req) (requestKw req) with
    | Option.none => Option.none
    | some (.ok v) => some v
    | some (.error (.pathRewrite p)) =>
      safe_dispatch fuel rfuel roots (Request.mk p)
    | some (.error e) => some (handleError e)

/-- The normalisation applied by `Site.dispatch` after the optional
`http_response` rendering (core.py lines 252-261): a str is utf-8 encoded
and both str and bytes become `[200, (), payload]`; then a result of
length two gets empty headers, of length one gets status 200 and empty
headers; an empty sequence raises IndexError at `result[0]` and a
non-sequence raises TypeError at `len(result)`. -/
def normalizeRendered (r : PyVal) : Except Exc PyVal :=
  match
    (match r with
     | .vstr s => PyVal.vlist [.vint 200, .vlist [], .vbytes s]
     | .vbytes s => PyVal.vlist [.vint 200, .vlist [], .vbytes s]
     | x => x) with
  | .vlist [] => .error .typeError
  | .vlist [a] => .ok (.vlist [.vint 200, .vlist [], a])
  | .vlist [a, b] => .ok (.vlist [a, .vlist [], b])
  | .vlist xs => .ok (.vlist xs)
  | _ => .error .typeError

/-- The full result normalisation of `Site.dispatch` (core.py lines
246-261): a result exposing `http_response` (plain method or coroutine) is
first asked to render itself, and the rendered value goes through the same
subsequent rules. -/
def normalize (r : PyVal) : Except Exc PyVal :=
  normalizeRendered
    (match r with
     | .renderable v => v
     | x => x)

/-- `Site.dispatch` (core.py lines 243-261): `_safe_dispatch` then result
normalisation; exceptions raised by normalisation itself are not caught. -/
def dispatch (fuel rfuel : Nat) (roots : List (List (String × Node)))
    (req : Request) : Option (Except Exc PyVal) :=
  (safe_dispatch fuel rfuel roots req).map normalize

/-- A well-formed `(status, headers, body)` triple. -/
def isTriple : PyVal → Bool
  | .vlist [_, _, _] => true
  | _ => false

/-- `Scope` (src/aioroutes/scope.py): a labelled token whose `__eq__` is
`self is other` and whose `__hash__` is `id(self)`.  Python object
identity is modelled by the `oid` field: two separately constructed scopes
have distinct `oid`s, whatever their labels. -/
structure Scope where
  oid : Nat
  label : String

/-- `Scope.__eq__` (scope.py lines 10-11): identity comparison. -/
def Scope.eq (a b : Scope) : Bool := a.oid == b.oid

/-- `Scope.__hash__` (scope.py lines 13-14): `id(self)`. -/
def Scope.hashv (a : Scope) : Nat := a.oid

/-! ### Concrete sites taken from the spec's examples and the test suite -/

/-- Compiled signature of a zero-argument leaf such as
`def hello(self): ...`. -/
def specNoParams : SigSpec := SigSpec.mk [] false [] false false

/-- Compiled signature of the resource method
`def forum(self, id:int=None)` (test_routing.py lines 103-107):
one positional parameter with default `None` and an `int` annotation,
`partial=True` giving a `__tail__`. -/
def specForum : SigSpec :=
  SigSpec.mk [PParam.mk "id" true PyVal.none Coerce.cint] false [] false true

/-- Compiled signature of a one-argument leaf such as
`def default(self, page)`. -/
def specOneArg (nm : String) : SigSpec :=
  SigSpec.mk [PParam.mk nm false PyVal.none Coerce.cnone] false [] false false

/-- The site of the round-trip example (spec §8): a root registering the
zero-argument leaf `hello` returning `"world"`. -/
def helloRoot : List (String × Node) :=
  [("hello", Node.leaf [] [] specNoParams (fun _ _ => .ok (.vstr "world")))]

/-- The `Forum(id)` sub-resource of the test site: its `index` leaf renders
`forum(<id>).index`. -/
def forumRes (v : PyVal) : Node :=
  Node.res
    [("index", Node.leaf [] [] specNoParams
      (fun _ _ =>
        .ok (.vstr ("forum(" ++
          (match v with
           | .vint n => toString n
           | _ => "?") ++ ").index"))))]

/-- The test suite's root (test_routing.py lines 93-120, restricted to the
members the claims exercise): `forum` transitions into `Forum(id)` when
`id` is supplied and raises `PathRewrite('/forums')` otherwise; `forums`
is a plain leaf. -/
def testRoot : List (String × Node) :=
  [("forum", Node.resM [] Option.none specForum
      (fun bnd _ =>
        match bnd with
        | [PyVal.none] => .error (.pathRewrite "/forums")
        | [v] => .ok (forumRes v)
        | _ => .error .typeError)),
   ("forums", Node.leaf [] [] specNoParams (fun _ _ => .ok (.vstr "forums")))]

/-- A root whose `forum` handler unconditionally raises
`PathRewrite('/forums')` (spec §8, redirect idempotence). -/
def redirRoot : List (String × Node) :=
  [("forum", Node.resM [] Option.none specForum
      (fun _ _ => .error (.pathRewrite "/forums"))),
   ("forums", Node.leaf [] [] specNoParams (fun _ _ => .ok (.vstr "forums")))]

/-- A root whose `loop` leaf unconditionally raises
`PathRewrite('/loop')`: every restart of the redirect loop reaches it
again. -/
def loopRoot : List (String × Node) :=
  [("loop", Node.leaf [] [] specNoParams
      (fun _ _ => .error (.pathRewrite "/loop")))]

/-- A root whose `boom` leaf raises an arbitrary non-web exception. -/
def boomRoot : List (String × Node) :=
  [("boom", Node.leaf [] [] specNoParams
      (fun _ _ => .error (.userError "crash")))]

/-- The default-fallback example (spec §8): children `about` and a
`default(page)` leaf rendering the unresolved segment. -/
def aboutRoot : List (String × Node) :=
  [("about", Node.leaf [] [] specNoParams (fun _ _ => .ok (.vstr "about"))),
   ("default", Node.leaf [] [] (specOneArg "page")
      (fun bnd _ =>
        match bnd with
        | [PyVal.vstr p] => .ok (.vstr ("page=" ++ p))
        | _ => .error .typeError))]

/-- A resource surface mirroring `TestLocalDispatch` (test_routing.py
lines 49-63): a `_`-prefixed tagged member and an untagged plain
method. -/
def c5Root : List (String × Node) :=
  [("_hidden", Node.leaf [] [] specNoParams (fun _ _ => .ok (.vstr "hidden"))),
   ("invisible", Node.plain)]

/-- A root whose resource method `r` carries one pre-hook returning the
non-None value `"x"` and no attached postprocessor (so `_zweb_post` is
unset on it). -/
def c9Root : List (String × Node) :=
  [("r", Node.resM [fun _ _ => .ok (.vstr "x")] Option.none specForum
      (fun _ _ => .ok (Node.res [])))]

/-- `safe_dispatch` diverges on this site and request: no fuel bound makes
the redirect-restart loop of `Site._safe_dispatch` return. -/
def safeDispatchDiverges (roots : List (List (String × Node)))
    (req : Request) : Prop :=
  ∀ fuel rfuel, safe_dispatch fuel rfuel roots req = Option.none

/-! ### Shared lemmas -/

/-- The pre-hook loop stops at the first hook whose value is not None,
after running every earlier hook. -/
theorem runPre_short (pre1 : List PreHook) (hook : PreHook)
    (pre2 : List PreHook) (args : List String) (kw : KW) (v : PyVal)
    (h1 : ∀ p ∈ pre1, p args kw = .ok PyVal.none)
    (h2 : hook args kw = .ok v) (h3 : v.isNone = false) :
    runPre (pre1 ++ hook :: pre2) args kw = .ok v := by
  induction pre1 with
  | nil => simp only [List.nil_append, runPre, h2, h3, Bool.false_eq_true,
      if_false]
  | cons p ps ih =>
    have hp : p args kw = .ok PyVal.none := h1 p (List.mem_cons_self p ps)
    simp only [List.cons_append, runPre, hp, PyVal.isNone, if_true]
    exact ih (fun q hq => h1 q (List.mem_cons_of_mem p hq))

/-- A pre-hook returning None hands over to the rest of the hook list. -/
theorem runPre_none (pre2 : List PreHook) (args : List String) (kw : KW) :
    runPre ((fun _ _ => Except.ok PyVal.none) :: pre2) args kw =
      runPre pre2 args kw := by
  simp only [runPre, PyVal.isNone, if_true]

/-- On a leaf, a short-circuiting pre-hook skips the later pre-hooks, the
signature binding and the body; the value runs through the post-hooks. -/
theorem leaf_short_circuit (pre1 pre2 : List PreHook) (hook : PreHook)
    (post : List PostHook) (spec : SigSpec)
    (body : List PyVal → List (String × PyVal) → Except Exc PyVal)
    (args : List String) (kw : KW) (v : PyVal)
    (h1 : ∀ p ∈ pre1, p args kw = .ok PyVal.none)
    (h2 : hook args kw = .ok v) (h3 : v.isNone = false) :
    dispatch_leaf (pre1 ++ hook :: pre2) post spec body args kw =
      runPost post v := by
  have hr := runPre_short pre1 hook pre2 args kw v h1 h2 h3
  simp only [dispatch_leaf, hr, h3, Bool.false_eq_true, if_false]

/-- On a resource transition with an attached post-hook list, a
short-circuiting pre-hook skips binding and the body, and the value runs
through the post-hooks under the `_INTERRUPT` marker. -/
theorem resource_short_circuit (pre1 pre2 : List PreHook) (hook : PreHook)
    (posts : List PostHook) (spec2 : SigSpec)
    (body2 : List PyVal → List (String × PyVal) → Except Exc Node)
    (args : List String) (kw : KW) (v : PyVal)
    (h1 : ∀ p ∈ pre1, p args kw = .ok PyVal.none)
    (h2 : hook args kw = .ok v) (h3 : v.isNone = false) :
    dispatch_resource (pre1 ++ hook :: pre2) (some posts) spec2 body2
      args kw = (runPost posts v).map Sum.inr := by
  have hr := runPre_short pre1 hook pre2 args kw v h1 h2 h3
  simp only [dispatch_resource, hr, h3, Bool.false_eq_true, if_false]
  cases runPost posts v with
  | error e => rfl
  | ok w => rfl

/-! ### Claim theorems -/

/-- C1 (amended): whenever a resolution attempt raises anything other than
an `InternalRedirect`, `Site._safe_dispatch` returns on the next step: the
exception — wrapped as `InternalError` when it is not a `WebException` —
is rendered via the default response, a well-formed `(status, headers,
body)` triple that `Site.dispatch`'s normalisation passes through
unchanged.  The original claim's parenthetical — that the redirect-restart
loop terminates even for a handler that unconditionally redirects — is
false; see the counterexample. -/
theorem c1_error_wrapping (fuel rfuel : Nat)
    (roots : List (List (String × Node))) (req : Request) (e : Exc)
    (h : siteResolve rfuel roots (requestArgs req) (requestKw req) =
      some (.error e))
    (hnr : ∀ p, e ≠ Exc.pathRewrite p) :
    safe_dispatch (Nat.succ fuel) rfuel roots req = some (handleError e)
    ∧ isTriple (handleError e) = true
    ∧ (e.isWeb = false → handleError e = defaultResponse Exc.internalError)
    ∧ normalize (handleError e) = .ok (handleError e) := by
  cases e with
  | pathRewrite p => exact absurd rfl (hnr p)
  | notFound =>
    exact ⟨by simp only [safe_dispatch]; rw [h], rfl,
      fun hh => Bool.noConfusion hh, rfl⟩
  | methodNotAllowed =>
    exact ⟨by simp only [safe_dispatch]; rw [h], rfl,
      fun hh => Bool.noConfusion hh, rfl⟩
  | forbidden =>
    exact ⟨by simp only [safe_dispatch]; rw [h], rfl,
      fun hh => Bool.noConfusion hh, rfl⟩
  | internalError =>
    exact ⟨by simp only [safe_dispatch]; rw [h], rfl, fun _ => rfl, rfl⟩
  | childNotFound =>
    exact ⟨by simp only [safe_dispatch]; rw [h], rfl, fun _ => rfl, rfl⟩
  | typeError =>
    exact ⟨by simp only [safe_dispatch]; rw [h], rfl, fun _ => rfl, rfl⟩
  | valueError =>
    exact ⟨by simp only [safe_dispatch]; rw [h], rfl, fun _ => rfl, rfl⟩
  | attributeError =>
    exact ⟨by simp only [safe_dispatch]; rw [h], rfl, fun _ => rfl, rfl⟩
  | runtimeError =>
    exact ⟨by simp only [safe_dispatch]; rw [h], rfl, fun _ => rfl, rfl⟩
  | userError msg =>
    exact ⟨by simp only [safe_dispatch]; rw [h], rfl, fun _ => rfl, rfl⟩

/-- Witness for C1: a leaf raising an arbitrary non-web exception makes
`_safe_dispatch` return the rendered 500 triple. -/
theorem c1_error_wrapping_witness :
    safe_dispatch 1 9 [boomRoot] (Request.mk "/boom") =
      some (handleError (Exc.userError "crash"))
    ∧ isTriple (handleError (Exc.userError "crash")) = true :=
  have r := c1_error_wrapping 0 9 [boomRoot] (Request.mk "/boom")
    (Exc.userError "crash") rfl (fun _ hp => Exc.noConfusion hp)
  ⟨r.1, r.2.1⟩

/-- C1 (counterexample): a handler that unconditionally raises
`PathRewrite('/loop')` for the very path that reaches it makes the
`while True` redirect-restart loop of `Site._safe_dispatch` spin forever —
no fuel bound makes it return a triple, refuting "the redirect-restart
loop still terminates in a returned triple". -/
theorem c1_redirect_loop_counterexample :
    safeDispatchDiverges [loopRoot] (Request.mk "/loop") := by
  intro fuel rfuel
  induction fuel with
  | zero => rfl
  | succ f ih =>
    cases rfuel with
    | zero => rfl
    | succ g => exact ih

/-- C2: at a resolution step whose child lookup raises `ChildNotFound`, a
resource with a `default` leaf retries by dispatching `default` with the
unresolved segment pushed back exactly once onto the remaining positional
input (so it becomes the first positional argument), and a resource
without a `default` attribute fails with the path resolver's NotFound. -/
theorem c2_default_fallback (fuel : Nat) (children : List (String × Node))
    (name : String) (rest : List String) (kw : KW)
    (h : resolve_local children name = .error .childNotFound) :
    (lookupChild children "default" = Option.none →
      resolveNode (Nat.succ fuel) children (name :: rest) kw =
        some (.error .notFound))
    ∧ (∀ pre post spec body,
        lookupChild children "default" =
          some (Node.leaf pre post spec body) →
        resolveNode (Nat.succ fuel) children (name :: rest) kw =
          some (dispatch_leaf pre post spec body (name :: rest) kw)) := by
  constructor
  · intro hd
    simp only [resolveNode]
    rw [h, hd]
  · intro pre post spec body hd
    simp only [resolveNode]
    rw [h, hd]
    rfl

/-- Witness for C2, the spec's own example: children `about` plus a
`default(page)` leaf; `/about` resolves to the `about` result and
`/missing` invokes `default` with the segment `"missing"` bound once as
`page`. -/
theorem c2_default_fallback_witness :
    resolveNode 5 aboutRoot ["missing"] [] =
      some (.ok (.vstr "page=missing"))
    ∧ resolveNode 5 aboutRoot ["about"] [] = some (.ok (.vstr "about")) :=
  have r := (c2_default_fallback 4 aboutRoot "missing" [] [] rfl).2
    [] [] (specOneArg "page")
    (fun bnd _ =>
      match bnd with
      | [PyVal.vstr p] => .ok (.vstr ("page=" ++ p))
      | _ => .error .typeError) rfl
  ⟨r.trans rfl, rfl⟩

/-- C3: a zero-argument leaf binds only when all positional input is
consumed: `/hello` and `/hello/` return `"world"`, `/hello/extra` raises
NotFound, and in general any remaining segments after `hello` make the
leaf's signature binding fail and surface as NotFound. -/
theorem c3_leaf_requires_full_consumption :
    siteResolve 9 [helloRoot] (requestArgs (Request.mk "/hello"))
      (requestKw (Request.mk "/hello")) = some (.ok (.vstr "world"))
    ∧ siteResolve 9 [helloRoot] (requestArgs (Request.mk "/hello/"))
      (requestKw (Request.mk "/hello/")) = some (.ok (.vstr "world"))
    ∧ siteResolve 9 [helloRoot] (requestArgs (Request.mk "/hello/extra"))
      (requestKw (Request.mk "/hello/extra")) = some (.error .notFound)
    ∧ ∀ (seg : String) (segs : List String) (kw : KW),
        siteResolve 9 [helloRoot] ("hello" :: seg :: segs) kw =
          some (.error .notFound) :=
  ⟨rfl, rfl, rfl, fun _ _ _ => rfl⟩

/-- Witness for C3 at a concrete leftover segment. -/
theorem c3_leaf_requires_full_consumption_witness :
    siteResolve 9 [helloRoot] ["hello", "x"] [] =
      some (.error .notFound) :=
  c3_leaf_requires_full_consumption.2.2.2 "x" [] []

/-- C4: pre-hooks run in registration order; the first returning a
non-None value skips the later pre-hooks, signature binding and the
handler body, and the value is passed through every post-hook in
registration order — on leaves and, when a post-hook list is attached, on
resource transitions. -/
theorem c4_prehook_short_circuit (pre1 pre2 : List PreHook) (hook : PreHook)
    (post : List PostHook) (spec : SigSpec)
    (body : List PyVal → List (String × PyVal) → Except Exc PyVal)
    (args : List String) (kw : KW) (v : PyVal) (posts : List PostHook)
    (spec2 : SigSpec)
    (body2 : List PyVal → List (String × PyVal) → Except Exc Node)
    (h1 : ∀ p ∈ pre1, p args kw = .ok PyVal.none)
    (h2 : hook args kw = .ok v) (h3 : v.isNone = false) :
    dispatch_leaf (pre1 ++ hook :: pre2) post spec body args kw =
      runPost post v
    ∧ dispatch_resource (pre1 ++ hook :: pre2) (some posts) spec2 body2
        args kw = (runPost posts v).map Sum.inr :=
  ⟨leaf_short_circuit pre1 pre2 hook post spec body args kw v h1 h2 h3,
   resource_short_circuit pre1 pre2 hook posts spec2 body2 args kw v
     h1 h2 h3⟩

/-- Witness for C4, the spec's example: a pre-hook returning `"cached"`
with a post-hook appending `":post"` yields `"cached:post"` and the body
never executes. -/
theorem c4_prehook_short_circuit_witness :
    dispatch_leaf [fun _ _ => .ok (.vstr "cached")]
      [fun v =>
        match v with
        | .vstr s => .ok (.vstr (s ++ ":post"))
        | _ => .error .typeError]
      specNoParams (fun _ _ => .ok (.vstr "body")) [] [] =
      .ok (.vstr "cached:post") :=
  have r := c4_prehook_short_circuit [] [] (fun _ _ => .ok (.vstr "cached"))
    [fun v =>
      match v with
      | .vstr s => .ok (.vstr (s ++ ":post"))
      | _ => .error .typeError]
    specNoParams (fun _ _ => .ok (.vstr "body")) [] [] (.vstr "cached")
    [] specNoParams (fun _ _ => .ok (Node.res []))
    (fun p hp => absurd hp (List.not_mem_nil p)) rfl rfl
  r.1.trans rfl

/-- C5: `Resource.resolve_local` hides every name that is not a plain
identifier or that starts with the reserved underscore prefix — whether or
not a member of that exact name exists — and every member carrying no
`_zweb` kind tag. -/
theorem c5_hidden_names (children : List (String × Node)) (name : String) :
    ((pyIsIdentifier name = false ∨ startsUnderscore name = true) →
      resolve_local children name = .error .childNotFound)
    ∧ (lookupChild children name = some Node.plain →
      resolve_local children name = .error .childNotFound) := by
  constructor
  · intro h
    cases h with
    | inl h => simp [resolve_local, h]
    | inr h => simp [resolve_local, h]
  · intro h
    simp only [resolve_local]
    split
    · rfl
    · rw [h]

/-- Witness for C5: a `_`-prefixed member that exists, a non-identifier
name, and an existing member with no kind tag all fail with
`ChildNotFound`. -/
theorem c5_hidden_names_witness :
    resolve_local c5Root "_hidden" = .error .childNotFound
    ∧ resolve_local c5Root "hello world" = .error .childNotFound
    ∧ resolve_local c5Root "invisible" = .error .childNotFound :=
  ⟨(c5_hidden_names c5Root "_hidden").1 (Or.inr rfl),
   (c5_hidden_names c5Root "hello world").1 (Or.inl rfl),
   (c5_hidden_names c5Root "invisible").2 rfl⟩

/-- C6: scope equality is identity — every scope equals itself, two
separately constructed scopes (distinct object identity) are unequal and
hash differently even with the same label, and equality never depends on
the label value. -/
theorem c6_scope_identity (a b : Scope) :
    Scope.eq a a = true
    ∧ (a.oid ≠ b.oid →
        Scope.eq a b = false ∧ Scope.hashv a ≠ Scope.hashv b)
    ∧ (∀ l l', Scope.eq (Scope.mk a.oid l) (Scope.mk b.oid l') =
        Scope.eq a b) := by
  refine ⟨by simp [Scope.eq], fun h => ⟨?_, h⟩, fun l l' => rfl⟩
  simp only [Scope.eq, beq_eq_false_iff_ne, ne_eq]
  exact h

/-- Witness for C6: two scopes both labelled `"http"` but separately
constructed compare unequal and hash differently. -/
theorem c6_scope_identity_witness :
    Scope.eq (Scope.mk 0 "http") (Scope.mk 1 "http") = false
    ∧ Scope.hashv (Scope.mk 0 "http") ≠ Scope.hashv (Scope.mk 1 "http") :=
  (c6_scope_identity (Scope.mk 0 "http") (Scope.mk 1 "http")).2.1
    (by decide)

/-- C7: with a `forum` handler that unconditionally raises
`PathRewrite('/forums')`, dispatching `/forum` equals dispatching
`/forums`: the redirect rewrites the request path and restarts resolution
instead of surfacing as an error. -/
theorem c7_redirect_idempotence :
    dispatch 3 9 [redirRoot] (Request.mk "/forum") =
      dispatch 3 9 [redirRoot] (Request.mk "/forums") := rfl

/-- C8: `Site.dispatch` result normalisation — a bare string or bytes
payload becomes `(200, no headers, payload)`, a 2-element result keeps its
status and gets empty headers, a 1-element result gets status 200 and
empty headers, and a result exposing `http_response` is rendered first and
the rendered value goes through the same rules. -/
theorem c8_result_normalization (s b : String) (a c v : PyVal) :
    normalize (.vstr s) = .ok (.vlist [.vint 200, .vlist [], .vbytes s])
    ∧ normalize (.vbytes b) = .ok (.vlist [.vint 200, .vlist [], .vbytes b])
    ∧ normalize (.vlist [a, c]) = .ok (.vlist [a, .vlist [], c])
    ∧ normalize (.vlist [a]) = .ok (.vlist [.vint 200, .vlist [], a])
    ∧ normalize (.renderable v) = normalizeRendered v
    ∧ normalize (.renderable (.vstr s)) = normalize (.vstr s) :=
  ⟨rfl, rfl, rfl, rfl, rfl, rfl⟩

/-- Witness for C8 at concrete values. -/
theorem c8_result_normalization_witness :
    normalize (.vstr "hi") =
      .ok (.vlist [.vint 200, .vlist [], .vbytes "hi"]) :=
  (c8_result_normalization "hi" "b" PyVal.none PyVal.none PyVal.none).1

/-- C9 (amended): the absent marker for pre-hook short-circuiting is
exactly None — non-None falsy values such as `False`, `0` and `""` all
short-circuit, while None continues to the next pre-hook and then the
handler; on a resource transition the short-circuit value is returned as
the final result through the post-hooks provided a post-hook list is
attached (`resource()` does not initialise `_zweb_post`, so without an
attached postprocessor the short-circuit path raises AttributeError; see
the counterexample). -/
theorem c9_none_marker (pre2 : List PreHook) (post : List PostHook)
    (spec : SigSpec)
    (body : List PyVal → List (String × PyVal) → Except Exc PyVal)
    (args : List String) (kw : KW) (v : PyVal) (posts : List PostHook)
    (spec2 : SigSpec)
    (body2 : List PyVal → List (String × PyVal) → Except Exc Node) :
    (PyVal.isNone (PyVal.vbool false) = false
      ∧ PyVal.isNone (PyVal.vint 0) = false
      ∧ PyVal.isNone (PyVal.vstr "") = false
      ∧ PyVal.isNone PyVal.none = true)
    ∧ (v.isNone = false →
        dispatch_leaf ((fun _ _ => Except.ok v) :: pre2) post spec body
          args kw = runPost post v)
    ∧ dispatch_leaf ((fun _ _ => Except.ok PyVal.none) :: pre2) post spec
        body args kw = dispatch_leaf pre2 post spec body args kw
    ∧ (v.isNone = false →
        dispatch_resource ((fun _ _ => Except.ok v) :: pre2) (some posts)
          spec2 body2 args kw = (runPost posts v).map Sum.inr) := by
  refine ⟨⟨rfl, rfl, rfl, rfl⟩, fun h3 => ?_, ?_, fun h3 => ?_⟩
  · exact leaf_short_circuit [] pre2 (fun _ _ => Except.ok v) post
      spec body args kw v (fun p hp => absurd hp (List.not_mem_nil p))
      rfl h3
  · simp only [dispatch_leaf, runPre_none]
  · exact resource_short_circuit [] pre2 (fun _ _ => Except.ok v) posts
      spec2 body2 args kw v (fun p hp => absurd hp (List.not_mem_nil p))
      rfl h3

/-- Witness for C9: a pre-hook returning the falsy `False` short-circuits
past the body. -/
theorem c9_none_marker_witness :
    dispatch_leaf [fun _ _ => Except.ok (PyVal.vbool false)] []
      specNoParams (fun _ _ => .ok (.vstr "body")) [] [] =
      .ok (.vbool false) :=
  have r := c9_none_marker [] [] specNoParams
    (fun _ _ => .ok (.vstr "body")) [] [] (.vbool false) []
    specNoParams (fun _ _ => .ok (Node.res []))
  (r.2.1 rfl).trans rfl

/-- C9 (counterexample): a resource-transition method with a pre-hook
returning the non-None value `"x"` and no attached postprocessor does NOT
return that value — the short-circuit path reads the missing `_zweb_post`
attribute, the AttributeError is wrapped as `InternalError`, and dispatch
renders the 500 page instead. -/
theorem c9_resource_prehook_counterexample :
    safe_dispatch 3 9 [c9Root] (Request.mk "/r") =
      some (handleError Exc.internalError)
    ∧ handleError Exc.internalError ≠ PyVal.vstr "x" :=
  ⟨rfl, fun h => by simp [handleError, defaultResponse, Exc.isWeb] at h⟩

/-- C10: supplying the same parameter both as the path segment and as a
query argument is a signature mismatch surfaced as NotFound —
`/forum/10?id=10` fails against `forum(id)` although `/forum/10` and
`/forum?id=10` each succeed. -/
theorem c10_positional_and_keyword_conflict :
    siteResolve 9 [testRoot] (requestArgs (Request.mk "/forum/10?id=10"))
      (requestKw (Request.mk "/forum/10?id=10")) = some (.error .notFound)
    ∧ siteResolve 9 [testRoot] (requestArgs (Request.mk "/forum/10"))
      (requestKw (Request.mk "/forum/10")) =
        some (.ok (.vstr "forum(10).index"))
    ∧ siteResolve 9 [testRoot] (requestArgs (Request.mk "/forum?id=10"))
      (requestKw (Request.mk "/forum?id=10")) =
        some (.ok (.vstr "forum(10).index")) :=
  ⟨rfl, rfl, rfl⟩


end AioRoutes
